import Mathlib

/-!
Shallow embedding of the my-movie-list-backend watchlist core.

The repository ships the HTTP controllers (`src/controller/watchlistController.js`,
the user routes file) and the jest test-suite for the watchlist service, but the
service module itself (`watchlistService.js`) and the DAO layer are not part of the
sources available here.  Controller-level definitions below are translated directly
from the controller sources; the service operations are modelled from the
specification (each such definition says so in its doc comment).  The persistence
layer is modelled as an explicit `Store` value threaded through every operation,
and every fallible operation returns `Except Err α × Store`, the second component
being the store after the call (unchanged on the error paths, which in the spec
all occur before any persist).
-/

/-- A comment embedded in a watchlist: `{commentId, userId, username, comment, datePosted}`. -/
structure Comment where
  commentId : String
  userId : String
  username : String
  comment : String
  datePosted : String
  deriving DecidableEq

/-- A user record: `{userId, username, likedLists}`. -/
structure User where
  userId : String
  username : String
  likedLists : List String
  deriving DecidableEq

/-- A watchlist record.  The owner field is called `userId` as in the repository
(the tests mock `{ userId }` as the owner of the fetched list). -/
structure Watchlist where
  listId : String
  userId : String
  listName : String
  isPublic : Bool
  collaborators : List String
  likes : List String
  comments : List Comment
  deriving DecidableEq

/-- The document store reached through the DAO interface. -/
structure Store where
  watchlists : List Watchlist
  users : List User
  deriving DecidableEq

/-- The four error kinds of the service layer, each carrying its message. -/
inductive Err where
  | ValidationError (msg : String)
  | NotFoundError (msg : String)
  | AuthorizationError (msg : String)
  | ConflictError (msg : String)
  deriving DecidableEq

/-- Decidable equality for `Except`, so that witnesses over service results can be
checked by evaluation. -/
instance {ε α : Type} [DecidableEq ε] [DecidableEq α] : DecidableEq (Except ε α) :=
  fun x y =>
    match x, y with
    | .ok a, .ok b =>
      if h : a = b then .isTrue (congrArg Except.ok h)
      else .isFalse (fun hc => h (Except.ok.inj hc))
    | .error a, .error b =>
      if h : a = b then .isTrue (congrArg Except.error h)
      else .isFalse (fun hc => h (Except.error.inj hc))
    | .ok _, .error _ => .isFalse (fun hc => Except.noConfusion hc)
    | .error _, .ok _ => .isFalse (fun hc => Except.noConfusion hc)

/-- The `err.message` field the controller switches on. -/
def Err.message : Err → String
  | .ValidationError m => m
  | .NotFoundError m => m
  | .AuthorizationError m => m
  | .ConflictError m => m

namespace watchlistDao

/-- DAO lookup `getWatchlistByListId`: first (unique) record with the given id. -/
def getWatchlistByListId (s : Store) (listId : String) : Option Watchlist :=
  s.watchlists.find? (fun w => w.listId == listId)

/-- DAO lookup `getWatchlistByUserIdAndListName`: all lists of an owner with that exact name. -/
def getWatchlistByUserIdAndListName (s : Store) (userId listName : String) : List Watchlist :=
  s.watchlists.filter (fun w => w.userId == userId && w.listName == listName)

/-- DAO write `updateWatchlist`: replace the record keyed by `listId`. -/
def updateWatchlist (s : Store) (listId : String) (w : Watchlist) : Store :=
  { s with watchlists := s.watchlists.map (fun x => if x.listId == listId then w else x) }

end watchlistDao

namespace userDao

/-- DAO lookup `getUserByUserId`. -/
def getUserByUserId (s : Store) (userId : String) : Option User :=
  s.users.find? (fun u => u.userId == userId)

/-- DAO write `updateUser`: replace the record keyed by `userId`. -/
def updateUser (s : Store) (userId : String) (u : User) : Store :=
  { s with users := s.users.map (fun x => if x.userId == userId then u else x) }

end userDao

/-- The partial-update payload `{ listName?, isPublic? }` of `updateWatchlist`. -/
structure UpdateData where
  listName : Option String
  isPublic : Option Bool
  deriving DecidableEq

/-- Result shape of `updateWatchlist`. -/
structure UpdateResult where
  message : String
  watchlist : Watchlist
  deriving DecidableEq

/-- The authenticated commenter identity `{userId, username}` passed by the controller. -/
structure Commenter where
  userId : String
  username : String
  deriving DecidableEq

/-- The second argument `{listId, comment}` of `commentOnWatchList`. -/
structure CommentArgs where
  listId : String
  comment : String
  deriving DecidableEq

/-- Result shape of `commentOnWatchList`. -/
structure CommentResult where
  message : String
  comment : Comment
  deriving DecidableEq

/-- Result shape of `deleteCommentOnWatchList`. -/
structure DeleteCommentResult where
  message : String
  watchlist : Watchlist
  deriving DecidableEq

/-- Blank test used by the validation steps: a string is blank when it is empty after
trimming, i.e. when every character is whitespace. -/
def isBlank (s : String) : Bool :=
  s.data.all (fun c => c.isWhitespace)

namespace watchlistService

/-- Modelled from the spec: `watchlistService.updateWatchlist` is not under `src/`.
Spec 4.1: fetch by `listId` (`NotFoundError "WatchList not found"` if absent); owner
check (`AuthorizationError`); if `listName` provided, blank-after-trim check
(`ValidationError "List name cannot be empty."`) and duplicate-name check over the
owner's lists with that exact name, conflicting only when a list with a different
`listId` holds the name (`ConflictError "A watchlist with that name already exists!"`);
apply only the provided fields and persist.  The spec's step 4 (`isPublic` must be a
boolean) is unrepresentable here because the embedding types `isPublic` as
`Option Bool`. -/
def updateWatchlist (s : Store) (userId listId : String) (d : UpdateData) :
    Except Err UpdateResult × Store :=
  match watchlistDao.getWatchlistByListId s listId with
  | none => (Except.error (Err.NotFoundError "WatchList not found"), s)
  | some w =>
    if w.userId != userId then
      (Except.error (Err.AuthorizationError "Unauthorized: You can only update your own watchlist."), s)
    else
      match d.listName with
      | some n =>
        if isBlank n then
          (Except.error (Err.ValidationError "List name cannot be empty."), s)
        else if (watchlistDao.getWatchlistByUserIdAndListName s userId n).any
            (fun w2 => w2.listId != listId) then
          (Except.error (Err.ConflictError "A watchlist with that name already exists!"), s)
        else
          let w2 := { w with listName := n, isPublic := d.isPublic.getD w.isPublic }
          (Except.ok { message := "Watchlist updated successfully", watchlist := w2 },
            watchlistDao.updateWatchlist s listId w2)
      | none =>
        let w2 := { w with isPublic := d.isPublic.getD w.isPublic }
        (Except.ok { message := "Watchlist updated successfully", watchlist := w2 },
          watchlistDao.updateWatchlist s listId w2)

/-- Modelled from the spec: `watchlistService.likeWatchlist` is not under `src/`.
Spec 4.1: fetch the user (`NotFoundError "User could not be found"`), fetch the list
(`NotFoundError "Watchlist could not be found"`), then toggle membership of `userId`
in `watchlist.likes` and of `listId` in `user.likedLists` together, persisting both
records and returning the action string.  `likes`/`likedLists` are sets per the spec,
so the insertion position is immaterial; insertion is modelled as cons. -/
def likeWatchlist (s : Store) (userId listId : String) : Except Err String × Store :=
  match userDao.getUserByUserId s userId with
  | none => (Except.error (Err.NotFoundError "User could not be found"), s)
  | some u =>
    match watchlistDao.getWatchlistByListId s listId with
    | none => (Except.error (Err.NotFoundError "Watchlist could not be found"), s)
    | some w =>
      if w.likes.contains userId then
        let w2 := { w with likes := w.likes.erase userId }
        let u2 := { u with likedLists := u.likedLists.erase listId }
        (Except.ok "unliked",
          userDao.updateUser (watchlistDao.updateWatchlist s listId w2) userId u2)
      else
        let w2 := { w with likes := userId :: w.likes }
        let u2 := { u with likedLists := listId :: u.likedLists }
        (Except.ok "liked",
          userDao.updateUser (watchlistDao.updateWatchlist s listId w2) userId u2)

/-- Modelled from the spec: `watchlistService.commentOnWatchList` is not under `src/`.
Spec 4.1: signature `commentOnWatchList({userId, username}, {listId, comment})`; the
emptiness check on `comment` comes before any store lookup; then fetch the list
(`NotFoundError "WatchList not found"`); authorization when the list is public or the
caller is owner or collaborator (otherwise
`AuthorizationError "Unauthorized: You cannot comment on this watchlist."`); append
the new comment (generator-assigned `commentId`, timestamp `datePosted`) and persist.
The identifier generator and clock are external collaborators, passed as the
`newId`/`datePosted` arguments. -/
def commentOnWatchList (newId datePosted : String) (s : Store)
    (who : Commenter) (args : CommentArgs) : Except Err CommentResult × Store :=
  if isBlank args.comment then
    (Except.error (Err.ValidationError "Comment cannot be empty."), s)
  else
    match watchlistDao.getWatchlistByListId s args.listId with
    | none => (Except.error (Err.NotFoundError "WatchList not found"), s)
    | some w =>
      if w.isPublic || who.userId == w.userId || w.collaborators.contains who.userId then
        let c : Comment := {
          commentId := newId,
          userId := who.userId,
          username := who.username,
          comment := args.comment,
          datePosted := datePosted }
        let w2 := { w with comments := w.comments ++ [c] }
        (Except.ok { message := "Comment added successfully", comment := c },
          watchlistDao.updateWatchlist s args.listId w2)
      else
        (Except.error (Err.AuthorizationError "Unauthorized: You cannot comment on this watchlist."), s)

/-- Modelled from the spec: `watchlistService.deleteCommentOnWatchList` is not under
`src/`.  Spec 4.1: fetch (`NotFoundError "WatchList not found"`); find the comment by
`commentId` (`NotFoundError "Comment not found"` if absent); remove it from the
sequence preserving the order of the rest, persist, and return the message with the
updated watchlist.  `commentId` values are unique within a watchlist per the spec, so
removing the first match removes the match. -/
def deleteCommentOnWatchList (s : Store) (listId commentId : String) :
    Except Err DeleteCommentResult × Store :=
  match watchlistDao.getWatchlistByListId s listId with
  | none => (Except.error (Err.NotFoundError "WatchList not found"), s)
  | some w =>
    if w.comments.any (fun c => c.commentId == commentId) then
      let w2 := { w with comments := w.comments.eraseP (fun c => c.commentId == commentId) }
      (Except.ok { message := "Comment deleted successfully", watchlist := w2 },
        watchlistDao.updateWatchlist s listId w2)
    else
      (Except.error (Err.NotFoundError "Comment not found"), s)

/-- Modelled from the spec: `watchlistService.getWatchlist` is not under `src/`.
Spec 4.1: returns the watchlist only when it is public or the caller is the owner or
a collaborator; denial is signalled by `none` rather than a thrown error, and the
not-found case yields the same denial signal (spec 9, open question). -/
def getWatchlist (s : Store) (user : Commenter) (listId : String) : Option Watchlist :=
  match watchlistDao.getWatchlistByListId s listId with
  | none => none
  | some w =>
    if w.isPublic || user.userId == w.userId || w.collaborators.contains user.userId then
      some w
    else
      none

end watchlistService

namespace watchlistController

/-- Status chosen by the error handler of `router.put("/:listId")` in
`watchlistController.js` (lines 43-72): the handler matches `err.message` against
the update service's message strings and falls through to 500. -/
def putListIdErrStatus (msg : String) : Nat :=
  if msg == "List name cannot be empty." || msg == "isPublic must be a boolean." then 400
  else if msg == "WatchList not found" then 404
  else if msg == "Unauthorized: You can only update your own watchlist." then 403
  else if msg == "A watchlist with that name already exists!" then 409
  else 500

/-- Status chosen by the error handler of `router.put("/:listId/comments")`
(lines 75-89): every caught error is answered with 403. -/
def putCommentsErrStatus (_msg : String) : Nat := 403

/-- Status chosen by the error handler of `router.patch("/:listId/likes")`
(lines 28-40): every caught error is answered with 400. -/
def patchLikesErrStatus (_msg : String) : Nat := 400

/-- Status chosen by the error handler of `router.get("/:listId")`
(lines 91-109): every caught error is answered with 400. -/
def getErrStatus (_msg : String) : Nat := 400

/-- The error-kind-to-status mapping the spec prescribes for the HTTP layer:
validation 400, not-found 404, authorization 403, conflict 409. -/
def specErrStatus : Err → Nat
  | .ValidationError _ => 400
  | .NotFoundError _ => 404
  | .AuthorizationError _ => 403
  | .ConflictError _ => 409

/-- The request data reaching the `router.get("/:listId")` handler: the JWT
payload `req.user` (absent when falsy) and the path parameter `listId`
(the empty string models a falsy `req.params.listId`). -/
structure GetRequest where
  user : Option Commenter
  listId : String
  deriving DecidableEq

/-- The module-level mutable bindings created by the undeclared assignments
`user = req.user`, `listId = req.params.listId` and `result = await ...` in the
`router.get("/:listId")` handler (lines 96-100): in non-strict JavaScript these
become implicit globals shared by every request handled by the process. -/
structure Globals where
  user : Option Commenter
  listId : Option String
  result : Option (Option Watchlist)
  deriving DecidableEq

/-- An HTTP response of the get route: status plus the watchlist payload when any. -/
structure GetResponse where
  status : Nat
  payload : Option Watchlist
  deriving DecidableEq

/-- The `router.get("/:listId")` handler (lines 91-109), with the implicit globals
made explicit: guard on falsy `req.user` / `req.params.listId` (400), assign the
three undeclared bindings, call `watchlistService.getWatchlist`, answer 400 when the
result is falsy and 200 with the watchlist otherwise.  The returned `Globals` value
is the module state left behind for the next request. -/
def getHandler (g : Globals) (s : Store) (req : GetRequest) : GetResponse × Globals :=
  match req.user with
  | none => ({ status := 400, payload := none }, g)
  | some u =>
    if req.listId == "" then ({ status := 400, payload := none }, g)
    else
      let g2 : Globals := {
        user := some u,
        listId := some req.listId,
        result := some (watchlistService.getWatchlist s u req.listId) }
      match watchlistService.getWatchlist s u req.listId with
      | none => ({ status := 400, payload := none }, g2)
      | some w => ({ status := 200, payload := some w }, g2)

end watchlistController

namespace userController

/-- The body of a `POST /register` request; each field is absent or a string. -/
structure RegisterBody where
  username : Option String
  password : Option String
  email : Option String
  deriving DecidableEq

/-- JavaScript truthiness of a request-body string field: present and non-empty. -/
def truthyField (o : Option String) : Bool :=
  match o with
  | none => false
  | some v => v != ""

/-- The `validateUserData` middleware of the user routes file: passes the request on
exactly when `data.username && data.password && data.email` is truthy. -/
def validateUserData (b : RegisterBody) : Bool :=
  truthyField b.username && truthyField b.password && truthyField b.email

/-- An HTTP response of the register route: status plus the JSON string body. -/
structure RegisterResponse where
  status : Nat
  body : String
  deriving DecidableEq

/-- The `POST /register` route behind `validateUserData`: when validation fails the
middleware answers 400 with "Username, email and password required" and the handler
never runs; otherwise the handler calls `userService.createUser` (an external
collaborator, its outcome passed as the `createUser` argument) and answers 201 on
success or 400 with the error message.  The boolean result records whether
`createUser` was invoked. -/
def registerRoute (b : RegisterBody) (createUser : Except String Unit) :
    RegisterResponse × Bool :=
  if validateUserData b then
    match createUser with
    | Except.ok _ => ({ status := 201, body := "Registration successful." }, true)
    | Except.error m => ({ status := 400, body := m }, true)
  else
    ({ status := 400, body := "Username, email and password required" }, false)

end userController

/-- Uniqueness of `listName` per owner, the data-model invariant of spec 3. -/
def namesUniquePerOwner (s : Store) : Prop :=
  ∀ w1 ∈ s.watchlists, ∀ w2 ∈ s.watchlists,
    w1.userId = w2.userId → w1.listName = w2.listName → w1.listId = w2.listId

/-- Replacing, in a list, every element satisfying `p` by a fixed element `b` that
itself satisfies `p` makes `find? p` return `b`, provided `find? p` succeeded before.
This is the shape of every DAO write followed by a DAO read in the store model. -/
theorem find?_map_replace {α : Type} {p : α → Bool} {l : List α} {a : α} (b : α)
    (h : l.find? p = some a) (hb : p b = true) :
    (l.map (fun x => if p x then b else x)).find? p = some b := by
  induction l with
  | nil => simp [List.find?] at h
  | cons x xs ih =>
    by_cases hx : p x = true
    · simp [List.find?, hx, hb]
    · have hx2 : p x = false := by simpa using hx
      simp only [List.find?, hx2] at h
      simp [List.find?, hx2, ih h]

/-- Mapping a replacement over the watchlists does not change membership shape:
every member of the new list is either the replacement or an untouched original. -/
theorem mem_map_replace {α : Type} {p : α → Bool} {l : List α} {b y : α}
    (hy : y ∈ l.map (fun x => if p x then b else x)) :
    y = b ∨ (y ∈ l ∧ p y = false) := by
  obtain ⟨x, hx, hfx⟩ := List.mem_map.1 hy
  by_cases hpx : p x = true
  · left
    simpa [hpx] using hfx.symm
  · right
    have hpx2 : p x = false := by simpa using hpx
    have hyx : y = x := by simpa [hpx2] using hfx.symm
    exact ⟨hyx ▸ hx, hyx ▸ hpx2⟩

/-- C2 counterexample: the claimed error-to-status mapping sends validation errors to
400, but the comments route's error handler answers 403 to the validation error
`"Comment cannot be empty."`, so the mapping is not the same on every watchlist route. -/
theorem commentsRoute_status_differs_from_spec_mapping :
    watchlistController.putCommentsErrStatus
        (Err.ValidationError "Comment cannot be empty.").message ≠
      watchlistController.specErrStatus (Err.ValidationError "Comment cannot be empty.") := by
  decide

/-- C2 (amended): only the update route implements the per-kind mapping, and only for
the update service's own error messages (blank-name and non-boolean validation 400,
not-found 404, authorization 403, name conflict 409, anything else 500); the comments
route answers 403 to every error, the likes route 400, and the get route 400. -/
theorem routeErrStatus_by_route :
    (∀ msg, watchlistController.putCommentsErrStatus msg = 403) ∧
    (∀ msg, watchlistController.patchLikesErrStatus msg = 400) ∧
    (∀ msg, watchlistController.getErrStatus msg = 400) ∧
    watchlistController.putListIdErrStatus "List name cannot be empty." = 400 ∧
    watchlistController.putListIdErrStatus "isPublic must be a boolean." = 400 ∧
    watchlistController.putListIdErrStatus "WatchList not found" = 404 ∧
    watchlistController.putListIdErrStatus
      "Unauthorized: You can only update your own watchlist." = 403 ∧
    watchlistController.putListIdErrStatus "A watchlist with that name already exists!" = 409 ∧
    ∀ msg, msg ≠ "List name cannot be empty." → msg ≠ "isPublic must be a boolean." →
      msg ≠ "WatchList not found" →
      msg ≠ "Unauthorized: You can only update your own watchlist." →
      msg ≠ "A watchlist with that name already exists!" →
      watchlistController.putListIdErrStatus msg = 500 := by
  refine ⟨fun _ => rfl, fun _ => rfl, fun _ => rfl,
    by decide, by decide, by decide, by decide, by decide, ?_⟩
  intro msg h1 h2 h3 h4 h5
  simp [watchlistController.putListIdErrStatus, h1, h2, h3, h4, h5]

/-- C2 witness: the amended route mapping evaluated at the concrete message "boom". -/
theorem routeErrStatus_by_route_witness :
    watchlistController.putCommentsErrStatus "boom" = 403 ∧
    watchlistController.putListIdErrStatus "boom" = 500 :=
  ⟨routeErrStatus_by_route.1 "boom",
    routeErrStatus_by_route.2.2.2.2.2.2.2.2 "boom"
      (by decide) (by decide) (by decide) (by decide) (by decide)⟩

/-- C6: a blank comment makes `commentOnWatchList` fail with
`ValidationError "Comment cannot be empty."` for every store whatsoever — in
particular for stores in which the referenced watchlist does not exist — and the
store comes back unchanged; the blank check precedes any lookup. -/
theorem commentOnWatchList_empty_comment (newId dp : String) (s : Store)
    (who : Commenter) (args : CommentArgs) (h : isBlank args.comment = true) :
    watchlistService.commentOnWatchList newId dp s who args =
      (Except.error (Err.ValidationError "Comment cannot be empty."), s) := by
  simp [watchlistService.commentOnWatchList, h]

/-- C6 witness: a whitespace-only comment against a store that does not contain the
referenced watchlist still yields exactly the validation error. -/
theorem commentOnWatchList_empty_comment_witness :
    isBlank " " = true ∧
    watchlistDao.getWatchlistByListId ⟨[], []⟩ "l1" = none ∧
    watchlistService.commentOnWatchList "id1" "t0" ⟨[], []⟩ ⟨"u1", "alice"⟩ ⟨"l1", " "⟩ =
      (Except.error (Err.ValidationError "Comment cannot be empty."), ⟨[], []⟩) :=
  ⟨by decide, by decide,
    commentOnWatchList_empty_comment "id1" "t0" ⟨[], []⟩ ⟨"u1", "alice"⟩ ⟨"l1", " "⟩ (by decide)⟩

/-- C9: the `router.get("/:listId")` handler does leave request-specific data in
module-level state: after handling a request authenticated as user `u1` for list
`l1`, the implicit globals `user`, `listId` and `result` hold that request's
identity, list id and service result, so a later request's handler can observe
them.  This exhibits a concrete execution contradicting the claim. -/
theorem getHandler_globals_leak :
    (watchlistController.getHandler ⟨none, none, none⟩ ⟨[], []⟩
        ⟨some ⟨"u1", "alice"⟩, "l1"⟩).2 =
      { user := some ⟨"u1", "alice"⟩, listId := some "l1", result := some none } ∧
    (watchlistController.getHandler ⟨none, none, none⟩ ⟨[], []⟩
        ⟨some ⟨"u1", "alice"⟩, "l1"⟩).2 ≠ ⟨none, none, none⟩ := by
  decide

/-- C10 counterexample: a register body whose three fields are all present but whose
`username` is the empty string is answered 400 "Username, email and password
required" without invoking `createUser`, contradicting the claim that presence of
the three fields suffices for `createUser` to be invoked. -/
theorem registerRoute_empty_string_counterexample :
    (⟨some "", some "pw", some "a@b.c"⟩ : userController.RegisterBody).username ≠ none ∧
    (⟨some "", some "pw", some "a@b.c"⟩ : userController.RegisterBody).password ≠ none ∧
    (⟨some "", some "pw", some "a@b.c"⟩ : userController.RegisterBody).email ≠ none ∧
    userController.registerRoute ⟨some "", some "pw", some "a@b.c"⟩ (Except.ok Unit.unit) =
      ({ status := 400, body := "Username, email and password required" }, false) := by
  decide

/-- C10 (amended): when any of username, password or email is missing or the empty
string the route answers 400 "Username, email and password required" and never
invokes `createUser`; when all three are present and non-empty it invokes
`createUser` and answers 201 "Registration successful." on success, or 400 with the
error's message when `createUser` throws. -/
theorem registerRoute_validation (b : userController.RegisterBody)
    (cu : Except String Unit) :
    ((userController.truthyField b.username = false ∨
        userController.truthyField b.password = false ∨
        userController.truthyField b.email = false) →
      userController.registerRoute b cu =
        ({ status := 400, body := "Username, email and password required" }, false)) ∧
    (userController.truthyField b.username = true →
      userController.truthyField b.password = true →
      userController.truthyField b.email = true →
      ((userController.registerRoute b cu).2 = true ∧
        (cu = Except.ok Unit.unit →
          (userController.registerRoute b cu).1 =
            { status := 201, body := "Registration successful." }) ∧
        ∀ m, cu = Except.error m →
          (userController.registerRoute b cu).1 = { status := 400, body := m })) := by
  constructor
  · intro h
    have hv : userController.validateUserData b = false := by
      unfold userController.validateUserData
      rcases h with h | h | h <;> simp [h]
    simp [userController.registerRoute, hv]
  · intro h1 h2 h3
    have hv : userController.validateUserData b = true := by
      simp [userController.validateUserData, h1, h2, h3]
    refine ⟨?_, ?_, ?_⟩
    · cases cu <;> simp [userController.registerRoute, hv]
    · intro hm; subst hm; simp [userController.registerRoute, hv]
    · intro m hm; subst hm; simp [userController.registerRoute, hv]

/-- C10 witness: a fully populated body is passed through to `createUser` and, on
success, answered 201. -/
theorem registerRoute_validation_witness :
    userController.truthyField (some "al") = true ∧
    (userController.registerRoute ⟨some "al", some "pw", some "a@b.c"⟩
        (Except.ok Unit.unit)).2 = true :=
  ⟨by decide,
    ((registerRoute_validation ⟨some "al", some "pw", some "a@b.c"⟩
        (Except.ok Unit.unit)).2 (by decide) (by decide) (by decide)).1⟩

/-- C3: `commentOnWatchList` takes the commenter identity `{userId, username}` and the
payload `{listId, comment}` as the two record arguments the controller passes, and on
a public existing watchlist with a non-blank comment it answers
`{ message := "Comment added successfully", comment := c }` where `c` carries the
given text (together with the generated id, the caller identity and the timestamp). -/
theorem commentOnWatchList_public_success (newId dp : String) (s : Store)
    (who : Commenter) (args : CommentArgs) (w : Watchlist)
    (hfetch : watchlistDao.getWatchlistByListId s args.listId = some w)
    (hpub : w.isPublic = true)
    (hne : isBlank args.comment = false) :
    (watchlistService.commentOnWatchList newId dp s who args).1 =
      Except.ok {
        message := "Comment added successfully",
        comment := {
          commentId := newId,
          userId := who.userId,
          username := who.username,
          comment := args.comment,
          datePosted := dp } } := by
  simp [watchlistService.commentOnWatchList, hfetch, hpub, hne]

/-- C3 witness: commenting on a concrete public watchlist of another owner succeeds
and the returned comment carries the given text. -/
theorem commentOnWatchList_public_success_witness :
    watchlistDao.getWatchlistByListId ⟨[⟨"l1", "owner1", "A", true, [], [], []⟩], []⟩ "l1" =
      some ⟨"l1", "owner1", "A", true, [], [], []⟩ ∧
    isBlank "nice" = false ∧
    (watchlistService.commentOnWatchList "id1" "t0"
        ⟨[⟨"l1", "owner1", "A", true, [], [], []⟩], []⟩ ⟨"u1", "alice"⟩ ⟨"l1", "nice"⟩).1 =
      Except.ok ⟨"Comment added successfully", ⟨"id1", "u1", "alice", "nice", "t0"⟩⟩ :=
  ⟨by decide, by decide,
    commentOnWatchList_public_success "id1" "t0"
      ⟨[⟨"l1", "owner1", "A", true, [], [], []⟩], []⟩ ⟨"u1", "alice"⟩ ⟨"l1", "nice"⟩
      ⟨"l1", "owner1", "A", true, [], [], []⟩ (by decide) (by decide) (by decide)⟩

/-- C4: on an existing watchlist with a non-blank comment, `commentOnWatchList`
raises `AuthorizationError "Unauthorized: You cannot comment on this watchlist."` if
and only if the list is not public, the caller is not the owner and the caller is not
a collaborator. -/
theorem commentOnWatchList_auth_iff (newId dp : String) (s : Store)
    (who : Commenter) (args : CommentArgs) (w : Watchlist)
    (hfetch : watchlistDao.getWatchlistByListId s args.listId = some w)
    (hne : isBlank args.comment = false) :
    (watchlistService.commentOnWatchList newId dp s who args).1 =
        Except.error
          (Err.AuthorizationError "Unauthorized: You cannot comment on this watchlist.") ↔
      ¬(w.isPublic = true ∨ who.userId = w.userId ∨ who.userId ∈ w.collaborators) := by
  by_cases hc :
      (w.isPublic || who.userId == w.userId || w.collaborators.contains who.userId) = true
  · have hprop : w.isPublic = true ∨ who.userId = w.userId ∨ who.userId ∈ w.collaborators := by
      simpa [or_assoc] using hc
    simp [watchlistService.commentOnWatchList, hfetch, hne, or_assoc, hprop]
  · have hprop : ¬(w.isPublic = true ∨ who.userId = w.userId ∨ who.userId ∈ w.collaborators) := by
      simpa [or_assoc] using hc
    simp [watchlistService.commentOnWatchList, hfetch, hne, or_assoc, hprop]

/-- C4 witness: a non-collaborator commenting on a private list of another owner is
exactly the unauthorized case. -/
theorem commentOnWatchList_auth_iff_witness :
    watchlistDao.getWatchlistByListId ⟨[⟨"l1", "owner1", "A", false, ["u2"], [], []⟩], []⟩ "l1" =
      some ⟨"l1", "owner1", "A", false, ["u2"], [], []⟩ ∧
    isBlank "hey" = false ∧
    ((watchlistService.commentOnWatchList "id1" "t0"
        ⟨[⟨"l1", "owner1", "A", false, ["u2"], [], []⟩], []⟩ ⟨"u1", "alice"⟩ ⟨"l1", "hey"⟩).1 =
        Except.error
          (Err.AuthorizationError "Unauthorized: You cannot comment on this watchlist.") ↔
      ¬((⟨"l1", "owner1", "A", false, ["u2"], [], []⟩ : Watchlist).isPublic = true ∨
        "u1" = (⟨"l1", "owner1", "A", false, ["u2"], [], []⟩ : Watchlist).userId ∨
        "u1" ∈ (⟨"l1", "owner1", "A", false, ["u2"], [], []⟩ : Watchlist).collaborators)) :=
  ⟨by decide, by decide,
    commentOnWatchList_auth_iff "id1" "t0"
      ⟨[⟨"l1", "owner1", "A", false, ["u2"], [], []⟩], []⟩ ⟨"u1", "alice"⟩ ⟨"l1", "hey"⟩
      ⟨"l1", "owner1", "A", false, ["u2"], [], []⟩ (by decide) (by decide)⟩

/-- C8: for an existing watchlist, `getWatchlist` returns the watchlist exactly when
it is public or the caller is its owner or one of its collaborators, and denial is
the absent value `none` — the function's type is `Option Watchlist`, so denial is an
absent value, not a thrown failure. -/
theorem getWatchlist_visibility (s : Store) (user : Commenter) (listId : String)
    (w : Watchlist)
    (hfetch : watchlistDao.getWatchlistByListId s listId = some w) :
    (watchlistService.getWatchlist s user listId = some w ↔
      (w.isPublic = true ∨ user.userId = w.userId ∨ user.userId ∈ w.collaborators)) ∧
    (¬(w.isPublic = true ∨ user.userId = w.userId ∨ user.userId ∈ w.collaborators) →
      watchlistService.getWatchlist s user listId = none) := by
  by_cases hc :
      (w.isPublic || user.userId == w.userId || w.collaborators.contains user.userId) = true
  · have hprop : w.isPublic = true ∨ user.userId = w.userId ∨ user.userId ∈ w.collaborators := by
      simpa [or_assoc] using hc
    simp [watchlistService.getWatchlist, hfetch, or_assoc, hprop]
  · have hprop : ¬(w.isPublic = true ∨ user.userId = w.userId ∨ user.userId ∈ w.collaborators) := by
      simpa [or_assoc] using hc
    simp [watchlistService.getWatchlist, hfetch, or_assoc, hprop]

/-- C8 witness: an outsider reading a private list is denied with `none`, while the
same record would be returned to a permitted caller, on a concrete store. -/
theorem getWatchlist_visibility_witness :
    watchlistDao.getWatchlistByListId ⟨[⟨"l1", "owner1", "A", false, ["u2"], [], []⟩], []⟩ "l1" =
      some ⟨"l1", "owner1", "A", false, ["u2"], [], []⟩ ∧
    ((watchlistService.getWatchlist ⟨[⟨"l1", "owner1", "A", false, ["u2"], [], []⟩], []⟩
        ⟨"u1", "alice"⟩ "l1" =
        some ⟨"l1", "owner1", "A", false, ["u2"], [], []⟩ ↔
      ((⟨"l1", "owner1", "A", false, ["u2"], [], []⟩ : Watchlist).isPublic = true ∨
        "u1" = (⟨"l1", "owner1", "A", false, ["u2"], [], []⟩ : Watchlist).userId ∨
        "u1" ∈ (⟨"l1", "owner1", "A", false, ["u2"], [], []⟩ : Watchlist).collaborators)) ∧
      (¬((⟨"l1", "owner1", "A", false, ["u2"], [], []⟩ : Watchlist).isPublic = true ∨
        "u1" = (⟨"l1", "owner1", "A", false, ["u2"], [], []⟩ : Watchlist).userId ∨
        "u1" ∈ (⟨"l1", "owner1", "A", false, ["u2"], [], []⟩ : Watchlist).collaborators) →
      watchlistService.getWatchlist ⟨[⟨"l1", "owner1", "A", false, ["u2"], [], []⟩], []⟩
        ⟨"u1", "alice"⟩ "l1" = none)) :=
  ⟨by decide,
    getWatchlist_visibility ⟨[⟨"l1", "owner1", "A", false, ["u2"], [], []⟩], []⟩
      ⟨"u1", "alice"⟩ "l1" ⟨"l1", "owner1", "A", false, ["u2"], [], []⟩ (by decide)⟩

/-- C7: `deleteCommentOnWatchList` answers `NotFoundError "WatchList not found"` on an
absent watchlist and `NotFoundError "Comment not found"` when no comment carries the
id, both times handing the store back unchanged; when a matching comment exists it
removes exactly one matching comment (the sequence splits as `pre ++ c :: post` with
no match in `pre`, and becomes `pre ++ post`, one element shorter), preserving the
relative order of the remaining comments, and answers
`{ message := "Comment deleted successfully", watchlist := <updated> }`. -/
theorem deleteCommentOnWatchList_spec (s : Store) (listId commentId : String) :
    (watchlistDao.getWatchlistByListId s listId = none →
      watchlistService.deleteCommentOnWatchList s listId commentId =
        (Except.error (Err.NotFoundError "WatchList not found"), s)) ∧
    (∀ w, watchlistDao.getWatchlistByListId s listId = some w →
      (∀ c ∈ w.comments, c.commentId ≠ commentId) →
      watchlistService.deleteCommentOnWatchList s listId commentId =
        (Except.error (Err.NotFoundError "Comment not found"), s)) ∧
    (∀ w, watchlistDao.getWatchlistByListId s listId = some w →
      (∃ c ∈ w.comments, c.commentId = commentId) →
      ∃ pre c post, w.comments = pre ++ c :: post ∧ c.commentId = commentId ∧
        (∀ x ∈ pre, x.commentId ≠ commentId) ∧
        (watchlistService.deleteCommentOnWatchList s listId commentId).1 =
          Except.ok {
            message := "Comment deleted successfully",
            watchlist := { w with comments := pre ++ post } } ∧
        (pre ++ post).length + 1 = w.comments.length) := by
  refine ⟨?_, ?_, ?_⟩
  · intro h
    simp [watchlistService.deleteCommentOnWatchList, h]
  · intro w hw hnone
    have hany : w.comments.any (fun c => c.commentId == commentId) = false := by
      rw [List.any_eq_false]
      intro c hc
      simp [hnone c hc]
    simp [watchlistService.deleteCommentOnWatchList, hw, hany]
  · intro w hw hex
    obtain ⟨c0, hc0mem, hc0id⟩ := hex
    have hp : (fun c => c.commentId == commentId) c0 = true := by simp [hc0id]
    obtain ⟨a, l1, l2, hl1, hpa, hdecomp, herase⟩ :=
      List.exists_of_eraseP (p := fun c => c.commentId == commentId) hc0mem hp
    have hany : w.comments.any (fun c => c.commentId == commentId) = true := by
      rw [List.any_eq_true]
      exact ⟨c0, hc0mem, hp⟩
    refine ⟨l1, a, l2, hdecomp, by simpa using hpa, ?_, ?_, ?_⟩
    · intro x hx
      have hx2 := hl1 x hx
      simpa using hx2
    · simp [watchlistService.deleteCommentOnWatchList, hw, hany, herase]
    · rw [hdecomp]
      simp [List.length_append]
      omega

/-- C7 witness: deleting the second of two comments on a concrete watchlist removes
exactly that comment and keeps the first in place. -/
theorem deleteCommentOnWatchList_spec_witness :
    watchlistDao.getWatchlistByListId
        ⟨[⟨"l1", "o1", "A", true, [], [],
          [⟨"c1", "u1", "al", "first", "t1"⟩, ⟨"c2", "u2", "bo", "second", "t2"⟩]⟩], []⟩ "l1" =
      some ⟨"l1", "o1", "A", true, [], [],
        [⟨"c1", "u1", "al", "first", "t1"⟩, ⟨"c2", "u2", "bo", "second", "t2"⟩]⟩ ∧
    ∃ pre c post,
      (⟨"l1", "o1", "A", true, [], [],
        [⟨"c1", "u1", "al", "first", "t1"⟩, ⟨"c2", "u2", "bo", "second", "t2"⟩]⟩ :
          Watchlist).comments = pre ++ c :: post ∧
      c.commentId = "c2" ∧
      (∀ x ∈ pre, x.commentId ≠ "c2") ∧
      (watchlistService.deleteCommentOnWatchList
          ⟨[⟨"l1", "o1", "A", true, [], [],
            [⟨"c1", "u1", "al", "first", "t1"⟩, ⟨"c2", "u2", "bo", "second", "t2"⟩]⟩], []⟩
          "l1" "c2").1 =
        Except.ok {
          message := "Comment deleted successfully",
          watchlist := {
            (⟨"l1", "o1", "A", true, [], [],
              [⟨"c1", "u1", "al", "first", "t1"⟩, ⟨"c2", "u2", "bo", "second", "t2"⟩]⟩ :
                Watchlist) with
            comments := pre ++ post } } ∧
      (pre ++ post).length + 1 =
        (⟨"l1", "o1", "A", true, [], [],
          [⟨"c1", "u1", "al", "first", "t1"⟩, ⟨"c2", "u2", "bo", "second", "t2"⟩]⟩ :
            Watchlist).comments.length :=
  ⟨by decide,
    (deleteCommentOnWatchList_spec
        ⟨[⟨"l1", "o1", "A", true, [], [],
          [⟨"c1", "u1", "al", "first", "t1"⟩, ⟨"c2", "u2", "bo", "second", "t2"⟩]⟩], []⟩
        "l1" "c2").2.2
      ⟨"l1", "o1", "A", true, [], [],
        [⟨"c1", "u1", "al", "first", "t1"⟩, ⟨"c2", "u2", "bo", "second", "t2"⟩]⟩
      (by decide) ⟨⟨"c2", "u2", "bo", "second", "t2"⟩, by decide, by decide⟩⟩

/-- C5 counterexample: for a user who already likes the list (an existing user and an
existing watchlist, as the claim quantifies), the first of the two calls returns
"unliked", not "liked": the claimed "liked then unliked" order does not hold for
every existing user and watchlist. -/
theorem likeWatchlist_already_liked_counterexample :
    userDao.getUserByUserId
        ⟨[⟨"l1", "o1", "A", false, [], ["u1"], []⟩], [⟨"u1", "alice", ["l1"]⟩]⟩ "u1" =
      some ⟨"u1", "alice", ["l1"]⟩ ∧
    watchlistDao.getWatchlistByListId
        ⟨[⟨"l1", "o1", "A", false, [], ["u1"], []⟩], [⟨"u1", "alice", ["l1"]⟩]⟩ "l1" =
      some ⟨"l1", "o1", "A", false, [], ["u1"], []⟩ ∧
    (watchlistService.likeWatchlist
        ⟨[⟨"l1", "o1", "A", false, [], ["u1"], []⟩], [⟨"u1", "alice", ["l1"]⟩]⟩ "u1" "l1").1 =
      Except.ok "unliked" := by
  decide

/-- Unfolding equation for `likeWatchlist` when both records are found: the call is
the toggle on `userId ∈ w.likes`, persisting both updated records. -/
theorem likeWatchlist_unfold (s : Store) (userId listId : String) (u : User)
    (w : Watchlist)
    (hu : userDao.getUserByUserId s userId = some u)
    (hw : watchlistDao.getWatchlistByListId s listId = some w) :
    watchlistService.likeWatchlist s userId listId =
      if userId ∈ w.likes then
        (Except.ok "unliked",
          userDao.updateUser
            (watchlistDao.updateWatchlist s listId { w with likes := w.likes.erase userId })
            userId { u with likedLists := u.likedLists.erase listId })
      else
        (Except.ok "liked",
          userDao.updateUser
            (watchlistDao.updateWatchlist s listId { w with likes := userId :: w.likes })
            userId { u with likedLists := listId :: u.likedLists }) := by
  by_cases h : userId ∈ w.likes
  · simp [watchlistService.likeWatchlist, hu, hw, h]
  · simp [watchlistService.likeWatchlist, hu, hw, h]

/-- C5 (amended): for an existing user and an existing watchlist that the user does
not yet like, `likeWatchlist` called twice returns "liked" then "unliked"; after the
first call both the watchlist's `likes` and the user's `likedLists` gained the
corresponding member, after the second call both records are back to their original
values (the second call undoes the first), and after each call membership of the user
in `watchlist.likes` is equivalent to membership of the list in `user.likedLists`. -/
theorem likeWatchlist_toggle (s : Store) (userId listId : String) (u : User)
    (w : Watchlist)
    (hu : userDao.getUserByUserId s userId = some u)
    (hw : watchlistDao.getWatchlistByListId s listId = some w)
    (hnl : userId ∉ w.likes)
    (hnu : listId ∉ u.likedLists) :
    (watchlistService.likeWatchlist s userId listId).1 = Except.ok "liked" ∧
    watchlistDao.getWatchlistByListId
        (watchlistService.likeWatchlist s userId listId).2 listId =
      some { w with likes := userId :: w.likes } ∧
    userDao.getUserByUserId (watchlistService.likeWatchlist s userId listId).2 userId =
      some { u with likedLists := listId :: u.likedLists } ∧
    (∀ w2 u2,
      watchlistDao.getWatchlistByListId
          (watchlistService.likeWatchlist s userId listId).2 listId = some w2 →
      userDao.getUserByUserId (watchlistService.likeWatchlist s userId listId).2 userId =
          some u2 →
      (userId ∈ w2.likes ↔ listId ∈ u2.likedLists) ∧ userId ∈ w2.likes) ∧
    (watchlistService.likeWatchlist
        (watchlistService.likeWatchlist s userId listId).2 userId listId).1 =
      Except.ok "unliked" ∧
    watchlistDao.getWatchlistByListId
        (watchlistService.likeWatchlist
          (watchlistService.likeWatchlist s userId listId).2 userId listId).2 listId =
      some w ∧
    userDao.getUserByUserId
        (watchlistService.likeWatchlist
          (watchlistService.likeWatchlist s userId listId).2 userId listId).2 userId =
      some u ∧
    (∀ w2 u2,
      watchlistDao.getWatchlistByListId
          (watchlistService.likeWatchlist
            (watchlistService.likeWatchlist s userId listId).2 userId listId).2 listId =
        some w2 →
      userDao.getUserByUserId
          (watchlistService.likeWatchlist
            (watchlistService.likeWatchlist s userId listId).2 userId listId).2 userId =
        some u2 →
      (userId ∈ w2.likes ↔ listId ∈ u2.likedLists) ∧ userId ∉ w2.likes) := by
  have hwf : s.watchlists.find? (fun x => x.listId == listId) = some w := hw
  have huf : s.users.find? (fun x => x.userId == userId) = some u := hu
  have hwp : (w.listId == listId) = true := by simpa using List.find?_some hwf
  have hup : (u.userId == userId) = true := by simpa using List.find?_some huf
  have h1 : watchlistService.likeWatchlist s userId listId =
      (Except.ok "liked",
        userDao.updateUser
          (watchlistDao.updateWatchlist s listId { w with likes := userId :: w.likes })
          userId { u with likedLists := listId :: u.likedLists }) := by
    rw [likeWatchlist_unfold s userId listId u w hu hw, if_neg hnl]
  have hfw1 : watchlistDao.getWatchlistByListId
      (watchlistService.likeWatchlist s userId listId).2 listId =
      some { w with likes := userId :: w.likes } := by
    rw [h1]
    simp only [userDao.updateUser, watchlistDao.updateWatchlist,
      watchlistDao.getWatchlistByListId] at hw ⊢
    exact find?_map_replace { w with likes := userId :: w.likes } hw hwp
  have hfu1 : userDao.getUserByUserId
      (watchlistService.likeWatchlist s userId listId).2 userId =
      some { u with likedLists := listId :: u.likedLists } := by
    rw [h1]
    simp only [userDao.updateUser, watchlistDao.updateWatchlist,
      userDao.getUserByUserId] at hu ⊢
    exact find?_map_replace { u with likedLists := listId :: u.likedLists } hu hup
  have hin : userId ∈ ({ w with likes := userId :: w.likes } : Watchlist).likes :=
    List.mem_cons_self userId w.likes
  have h2 : watchlistService.likeWatchlist
      (watchlistService.likeWatchlist s userId listId).2 userId listId =
      (Except.ok "unliked",
        userDao.updateUser
          (watchlistDao.updateWatchlist
            (watchlistService.likeWatchlist s userId listId).2 listId w)
          userId u) := by
    rw [likeWatchlist_unfold ((watchlistService.likeWatchlist s userId listId).2)
      userId listId { u with likedLists := listId :: u.likedLists }
      { w with likes := userId :: w.likes } hfu1 hfw1, if_pos hin]
    simp
  have hfw2 : watchlistDao.getWatchlistByListId
      (watchlistService.likeWatchlist
        (watchlistService.likeWatchlist s userId listId).2 userId listId).2 listId =
      some w := by
    rw [h2]
    have hprev := hfw1
    simp only [userDao.updateUser, watchlistDao.updateWatchlist,
      watchlistDao.getWatchlistByListId] at hprev ⊢
    exact find?_map_replace w hprev hwp
  have hfu2 : userDao.getUserByUserId
      (watchlistService.likeWatchlist
        (watchlistService.likeWatchlist s userId listId).2 userId listId).2 userId =
      some u := by
    rw [h2]
    have hprev := hfu1
    simp only [userDao.updateUser, watchlistDao.updateWatchlist,
      userDao.getUserByUserId] at hprev ⊢
    exact find?_map_replace u hprev hup
  refine ⟨by rw [h1], hfw1, hfu1, ?_, by rw [h2], hfw2, hfu2, ?_⟩
  · intro w2 u2 hw2 hu2
    rw [hfw1] at hw2
    rw [hfu1] at hu2
    cases hw2
    cases hu2
    refine ⟨⟨fun _ => List.mem_cons_self listId u.likedLists,
      fun _ => List.mem_cons_self userId w.likes⟩, List.mem_cons_self userId w.likes⟩
  · intro w2 u2 hw2 hu2
    rw [hfw2] at hw2
    rw [hfu2] at hu2
    cases hw2
    cases hu2
    exact ⟨⟨fun hm => absurd hm hnl, fun hm => absurd hm hnu⟩, hnl⟩

/-- C5 witness: on a concrete store where user `u1` does not yet like list `l1`, the
two successive calls return "liked" then "unliked". -/
theorem likeWatchlist_toggle_witness :
    userDao.getUserByUserId
        ⟨[⟨"l1", "o1", "A", false, [], [], []⟩], [⟨"u1", "alice", []⟩]⟩ "u1" =
      some ⟨"u1", "alice", []⟩ ∧
    watchlistDao.getWatchlistByListId
        ⟨[⟨"l1", "o1", "A", false, [], [], []⟩], [⟨"u1", "alice", []⟩]⟩ "l1" =
      some ⟨"l1", "o1", "A", false, [], [], []⟩ ∧
    "u1" ∉ (⟨"l1", "o1", "A", false, [], [], []⟩ : Watchlist).likes ∧
    "l1" ∉ (⟨"u1", "alice", []⟩ : User).likedLists ∧
    (watchlistService.likeWatchlist
        ⟨[⟨"l1", "o1", "A", false, [], [], []⟩], [⟨"u1", "alice", []⟩]⟩ "u1" "l1").1 =
      Except.ok "liked" ∧
    (watchlistService.likeWatchlist
        (watchlistService.likeWatchlist
          ⟨[⟨"l1", "o1", "A", false, [], [], []⟩], [⟨"u1", "alice", []⟩]⟩ "u1" "l1").2
        "u1" "l1").1 =
      Except.ok "unliked" :=
  ⟨by decide, by decide, by decide, by decide,
    (likeWatchlist_toggle
        ⟨[⟨"l1", "o1", "A", false, [], [], []⟩], [⟨"u1", "alice", []⟩]⟩ "u1" "l1"
        ⟨"u1", "alice", []⟩ ⟨"l1", "o1", "A", false, [], [], []⟩
        (by decide) (by decide) (by decide) (by decide)).1,
    (likeWatchlist_toggle
        ⟨[⟨"l1", "o1", "A", false, [], [], []⟩], [⟨"u1", "alice", []⟩]⟩ "u1" "l1"
        ⟨"u1", "alice", []⟩ ⟨"l1", "o1", "A", false, [], [], []⟩
        (by decide) (by decide) (by decide) (by decide)).2.2.2.2.1⟩

/-- Conflict characterization for `updateWatchlist`: under an existing list owned by
the caller, a provided non-blank name, the call reports the name conflict exactly
when some watchlist of the same owner carries that name under a different `listId`. -/
theorem updateWatchlist_conflict_core (s : Store) (userId listId n : String)
    (d : UpdateData) (w : Watchlist)
    (hfetch : watchlistDao.getWatchlistByListId s listId = some w)
    (howner : w.userId = userId)
    (hname : d.listName = some n)
    (hblank : isBlank n = false) :
    (watchlistService.updateWatchlist s userId listId d).1 =
        Except.error (Err.ConflictError "A watchlist with that name already exists!") ↔
      ∃ w2, w2 ∈ s.watchlists ∧ w2.userId = userId ∧ w2.listName = n ∧
        w2.listId ≠ listId := by
  cases hany : (watchlistDao.getWatchlistByUserIdAndListName s userId n).any
      (fun w2 => w2.listId != listId) with
  | true =>
    have hex : ∃ w2, w2 ∈ s.watchlists ∧ w2.userId = userId ∧ w2.listName = n ∧
        w2.listId ≠ listId := by
      obtain ⟨x, hxmem, hxp⟩ := List.any_eq_true.1 hany
      simp only [watchlistDao.getWatchlistByUserIdAndListName] at hxmem
      obtain ⟨hxm, hxc⟩ := List.mem_filter.1 hxmem
      have hxc2 : x.userId = userId ∧ x.listName = n := by simpa using hxc
      exact ⟨x, hxm, hxc2.1, hxc2.2, by simpa using hxp⟩
    simp [watchlistService.updateWatchlist, hfetch, howner, hname, hblank, hany, hex]
  | false =>
    have hnex : ¬∃ w2, w2 ∈ s.watchlists ∧ w2.userId = userId ∧ w2.listName = n ∧
        w2.listId ≠ listId := by
      rintro ⟨x, hxm, hxu, hxn, hxne⟩
      have hxin : (watchlistDao.getWatchlistByUserIdAndListName s userId n).any
          (fun w2 => w2.listId != listId) = true := by
        rw [List.any_eq_true]
        refine ⟨x, ?_, by simpa using hxne⟩
        simp [watchlistDao.getWatchlistByUserIdAndListName, List.mem_filter, hxm, hxu, hxn]
      rw [hany] at hxin
      exact Bool.false_ne_true hxin
    simp [watchlistService.updateWatchlist, hfetch, howner, hname, hblank, hany, hnex]

/-- C1: for an existing watchlist owned by the caller and a provided non-blank name,
`updateWatchlist` raises `ConflictError "A watchlist with that name already exists!"`
if and only if some watchlist of the same owner carries exactly that name under a
different `listId`; in particular, under the per-owner name-uniqueness invariant,
renaming a list to its own current name raises no conflict, and repeating the same
self-rename on the store left by the first call raises no conflict either. -/
theorem updateWatchlist_conflict_iff (s : Store) (userId listId n : String)
    (d : UpdateData) (w : Watchlist)
    (hfetch : watchlistDao.getWatchlistByListId s listId = some w)
    (howner : w.userId = userId)
    (hname : d.listName = some n)
    (hblank : isBlank n = false) :
    ((watchlistService.updateWatchlist s userId listId d).1 =
        Except.error (Err.ConflictError "A watchlist with that name already exists!") ↔
      ∃ w2, w2 ∈ s.watchlists ∧ w2.userId = userId ∧ w2.listName = n ∧
        w2.listId ≠ listId) ∧
    (namesUniquePerOwner s → n = w.listName →
      (watchlistService.updateWatchlist s userId listId d).1 ≠
        Except.error (Err.ConflictError "A watchlist with that name already exists!") ∧
      (watchlistService.updateWatchlist
          (watchlistService.updateWatchlist s userId listId d).2 userId listId d).1 ≠
        Except.error (Err.ConflictError "A watchlist with that name already exists!")) := by
  have hwf : s.watchlists.find? (fun x => x.listId == listId) = some w := hfetch
  have hwlid : w.listId = listId := by simpa using List.find?_some hwf
  have hwmem : w ∈ s.watchlists := List.mem_of_find?_eq_some hwf
  refine ⟨updateWatchlist_conflict_core s userId listId n d w hfetch howner hname hblank, ?_⟩
  intro huniq hself
  have hnex : ¬∃ w2, w2 ∈ s.watchlists ∧ w2.userId = userId ∧ w2.listName = n ∧
      w2.listId ≠ listId := by
    rintro ⟨x, hxm, hxu, hxn, hxne⟩
    have hxid := huniq x hxm w hwmem (by rw [hxu, howner]) (by rw [hxn, hself])
    exact hxne (hxid.trans hwlid)
  have hanyf : (watchlistDao.getWatchlistByUserIdAndListName s userId n).any
      (fun w2 => w2.listId != listId) = false := by
    rw [List.any_eq_false]
    intro x hxmem
    simp only [watchlistDao.getWatchlistByUserIdAndListName] at hxmem
    obtain ⟨hxm, hxc⟩ := List.mem_filter.1 hxmem
    have hxc2 : x.userId = userId ∧ x.listName = n := by simpa using hxc
    intro hxp
    exact hnex ⟨x, hxm, hxc2.1, hxc2.2, by simpa using hxp⟩
  have h1 : watchlistService.updateWatchlist s userId listId d =
      (Except.ok {
        message := "Watchlist updated successfully",
        watchlist := { w with listName := n, isPublic := d.isPublic.getD w.isPublic } },
        watchlistDao.updateWatchlist s listId
          { w with listName := n, isPublic := d.isPublic.getD w.isPublic }) := by
    simp [watchlistService.updateWatchlist, hfetch, howner, hname, hblank, hanyf]
  have hwp : (w.listId == listId) = true := by simp [hwlid]
  have hfw2 : watchlistDao.getWatchlistByListId
      (watchlistService.updateWatchlist s userId listId d).2 listId =
      some { w with listName := n, isPublic := d.isPublic.getD w.isPublic } := by
    rw [h1]
    simp only [watchlistDao.updateWatchlist, watchlistDao.getWatchlistByListId] at hwf ⊢
    exact find?_map_replace
      { w with listName := n, isPublic := d.isPublic.getD w.isPublic } hwf hwp
  constructor
  · intro hc
    exact hnex
      ((updateWatchlist_conflict_core s userId listId n d w hfetch howner hname hblank).1 hc)
  · intro hc
    have hc2 := (updateWatchlist_conflict_core
        (watchlistService.updateWatchlist s userId listId d).2 userId listId n d
        { w with listName := n, isPublic := d.isPublic.getD w.isPublic }
        hfw2 howner hname hblank).1 hc
    obtain ⟨y, hym, hyu, hyn, hyne⟩ := hc2
    rw [h1] at hym
    simp only [watchlistDao.updateWatchlist] at hym
    rcases mem_map_replace hym with hy | ⟨hym0, _⟩
    · apply hyne
      rw [hy]
      exact hwlid
    · exact hnex ⟨y, hym0, hyu, hyn, hyne⟩

/-- C1 witness: a self-rename of a concrete list to its own name, on a store with a
second differently named list of the same owner, conflicts neither on the first call
nor when repeated on the resulting store. -/
theorem updateWatchlist_conflict_iff_witness :
    watchlistDao.getWatchlistByListId
        ⟨[⟨"l1", "u1", "A", false, [], [], []⟩, ⟨"l2", "u1", "B", false, [], [], []⟩], []⟩
        "l1" =
      some ⟨"l1", "u1", "A", false, [], [], []⟩ ∧
    isBlank "A" = false ∧
    namesUniquePerOwner
      ⟨[⟨"l1", "u1", "A", false, [], [], []⟩, ⟨"l2", "u1", "B", false, [], [], []⟩], []⟩ ∧
    (watchlistService.updateWatchlist
        ⟨[⟨"l1", "u1", "A", false, [], [], []⟩, ⟨"l2", "u1", "B", false, [], [], []⟩], []⟩
        "u1" "l1" ⟨some "A", some true⟩).1 ≠
      Except.error (Err.ConflictError "A watchlist with that name already exists!") ∧
    (watchlistService.updateWatchlist
        (watchlistService.updateWatchlist
          ⟨[⟨"l1", "u1", "A", false, [], [], []⟩, ⟨"l2", "u1", "B", false, [], [], []⟩], []⟩
          "u1" "l1" ⟨some "A", some true⟩).2
        "u1" "l1" ⟨some "A", some true⟩).1 ≠
      Except.error (Err.ConflictError "A watchlist with that name already exists!") :=
  ⟨by decide, by decide, by unfold namesUniquePerOwner; decide,
    ((updateWatchlist_conflict_iff
        ⟨[⟨"l1", "u1", "A", false, [], [], []⟩, ⟨"l2", "u1", "B", false, [], [], []⟩], []⟩
        "u1" "l1" "A" ⟨some "A", some true⟩ ⟨"l1", "u1", "A", false, [], [], []⟩
        (by decide) (by decide) (by decide) (by decide)).2
      (by unfold namesUniquePerOwner; decide) (by decide)).1,
    ((updateWatchlist_conflict_iff
        ⟨[⟨"l1", "u1", "A", false, [], [], []⟩, ⟨"l2", "u1", "B", false, [], [], []⟩], []⟩
        "u1" "l1" "A" ⟨some "A", some true⟩ ⟨"l1", "u1", "A", false, [], [], []⟩
        (by decide) (by decide) (by decide) (by decide)).2
      (by unfold namesUniquePerOwner; decide) (by decide)).2⟩
